import Mathlib

/-!
Verification of the irrigation-control logic of the SmartIrrigationSystem
firmware (`src/MainProject_Menu.c`) for the C8051F380 target.

The embedding is shallow:

* the global sensor snapshot (`soil`, `rain`, `light`, `temp`, `hour`,
  `minute`, `second`) becomes the structure `Sensors`; the float LM75
  reading `temp` is modelled as a rational number, since the comparison
  `temp >= TEMP_THRESHOLD` on small in-range values is exact;
* the servo sweep variables `angle` (a 16-bit `unsigned int`, modelled
  as `Nat` with explicit `% 65536`) and `directionUp` become `SweepState`;
* `runProject` (lines 309-376) splits into its pure decision/state part
  `runProjectStep`, which returns the relay (pump) output together with
  the updated sweep state; LCD output is ignored;
* the menu-navigation part of `main`'s loop (lines 125-226) becomes
  `menuStep` acting on `SysState`.
-/

/-- `#define SOIL_THRESHOLD 40` (MainProject_Menu.c line 43). -/
def SOIL_THRESHOLD : Int := 40

/-- `#define RAIN_THRESHOLD 80` (line 44). -/
def RAIN_THRESHOLD : Int := 80

/-- `#define LIGHT_THRESHOLD 70` (line 45). -/
def LIGHT_THRESHOLD : Int := 70

/-- Snapshot of the global sensor / RTC variables read in part (A) of the
main loop: `soil`, `rain`, `light` (percent, `int`), `temp` (LM75 float,
modelled as a rational) and `hour`, `minute`, `second` from the DS1307. -/
structure Sensors where
  soil : Int
  rain : Int
  light : Int
  temp : ℚ
  hour : Int
  minute : Int
  second : Int
  deriving DecidableEq, Repr

/-- The time-window test of `runProject` line 339:
`((hour >= 4) && (hour < 8)) || ((hour >= 19) && (hour < 22))`. -/
def inWindow (h : Int) : Bool :=
  (decide (4 ≤ h) && decide (h < 8)) || (decide (19 ≤ h) && decide (h < 22))

/-- Servo sweep state: the globals `angle` (line 53, `unsigned int`,
initial 1500) and `directionUp` (line 52, `int` used as a flag). -/
structure SweepState where
  angle : Nat
  directionUp : Bool
  deriving DecidableEq, Repr

/-- The servo sweep advance of `runProject` lines 361-373: step `angle`
by 30 µs in the current direction, clamp to [600, 2400] and flip the
direction at the bound.  `angle` is a 16-bit unsigned value, so the
`+= 30` / `-= 30` updates are taken modulo 65536 before the bound tests,
exactly as in C. -/
def sweepStep (st : SweepState) : SweepState :=
  if st.directionUp then
    if 2400 ≤ (st.angle + 30) % 65536 then ⟨2400, false⟩
    else ⟨(st.angle + 30) % 65536, st.directionUp⟩
  else
    if (st.angle + 65536 - 30) % 65536 ≤ 600 then ⟨600, true⟩
    else ⟨(st.angle + 65536 - 30) % 65536, st.directionUp⟩

/-- The pure part of `runProject` (lines 334-375): the chain of five
early-return condition checks in source order (soil, time window, light,
rain, temperature), then `Relay_On` plus one sweep advance.  Returns
(pump relay output, new sweep state). -/
def runProjectStep (s : Sensors) (tempThreshold : Int) (st : SweepState) :
    Bool × SweepState :=
  if s.soil < SOIL_THRESHOLD then (false, st)
  else if !inWindow s.hour then (false, st)
  else if LIGHT_THRESHOLD ≤ s.light then (false, st)
  else if s.rain < RAIN_THRESHOLD then (false, st)
  else if (tempThreshold : ℚ) ≤ s.temp then (false, st)
  else (true, sweepStep st)

/-- The pump decision alone (first component of `runProjectStep`); it
does not depend on the sweep state. -/
def irrigationDecision (s : Sensors) (tempThreshold : Int) : Bool :=
  (runProjectStep s tempThreshold ⟨1500, false⟩).1

/-- The five irrigation conditions of `runProject`, indexed in source
order: 0 = soil, 1 = time window, 2 = light, 3 = rain, 4 = temperature.
Indices ≥ 5 are vacuously true. -/
def condB (s : Sensors) (tempThreshold : Int) : Nat → Bool
  | 0 => decide (SOIL_THRESHOLD ≤ s.soil)
  | 1 => inWindow s.hour
  | 2 => decide (s.light < LIGHT_THRESHOLD)
  | 3 => decide (RAIN_THRESHOLD ≤ s.rain)
  | 4 => decide (s.temp < (tempThreshold : ℚ))
  | _ + 5 => true

/-- Index of the first failing condition in the source evaluation order
of `runProject` (lines 335-354), `none` when all five hold.  Mirrors the
early-return chain of checks. -/
def firstFailing (s : Sensors) (tempThreshold : Int) : Option Nat :=
  if s.soil < SOIL_THRESHOLD then some 0
  else if !inWindow s.hour then some 1
  else if LIGHT_THRESHOLD ≤ s.light then some 2
  else if s.rain < RAIN_THRESHOLD then some 3
  else if (tempThreshold : ℚ) ≤ s.temp then some 4
  else none

/-- A sensor snapshot meeting all five conditions at threshold 27, for
concrete evaluations. -/
def goodSensors : Sensors :=
  ⟨55, 90, 30, 22, 5, 15, 0⟩

/-- `n` consecutive applications of the sweep advance (the state effect
of an all-conditions-met `runProject` call). -/
def stepIter : Nat → SweepState → SweepState
  | 0, st => st
  | n + 1, st => stepIter n (sweepStep st)

/-- `n` consecutive `runProject` calls under a fixed sensor snapshot and
threshold, tracking only the sweep state. -/
def runIter (s : Sensors) (t : Int) : Nat → SweepState → SweepState
  | 0, st => st
  | n + 1, st => runIter s t n (runProjectStep s t st).2

/-- The sweep state after a sequence of `runProject` calls with
arbitrary per-call sensor snapshots and thresholds. -/
def runSeq (l : List (Sensors × Int)) (st : SweepState) : SweepState :=
  l.foldl (fun acc p => (runProjectStep p.1 p.2 acc).2) st

/-- The sweep state at program start: `unsigned int angle = 1500;`
(line 53) and `int directionUp;` (line 52).  `directionUp` is a
file-scope object with static storage duration and no initializer, so C
semantics zero-initialize it: its initial value is 0, i.e. sweep-down. -/
def initSweep : SweepState := ⟨1500, false⟩

/-- System state touched by the menu-navigation part of `main`'s loop
(lines 125-226): the current screen index, the `runFlag` bit, the relay
(pump) output on P0.2, the RAM mirrors of the RTC `hour` and `minute`,
the adjustable `TEMP_THRESHOLD`, and the servo sweep state. -/
structure SysState where
  screen : Nat
  runFlag : Bool
  relay : Bool
  hour : Int
  minute : Int
  tempThreshold : Int
  sweep : SweepState
  deriving DecidableEq, Repr

/-- Top-row navigation (lines 128-149): button 1 enters Check, button 2
enters Setup (both clear `runFlag` and call `Relay_Off`), button 3
enters Project and sets `runFlag`. -/
def navStep (b : Int) (s : SysState) : SysState :=
  if b = 1 then { s with screen := 1, runFlag := false, relay := false }
  else if b = 2 then { s with screen := 2, runFlag := false, relay := false }
  else if b = 3 then { s with screen := 3, runFlag := true }
  else s

/-- Setup-screen sub-menu (lines 189-223): hour up/down with 0..23
wrap, minute up/down with 0..59 wrap, and button 17 incrementing
`TEMP_THRESHOLD` with wrap back to 20 past 30. -/
def setupStep (b : Int) (s : SysState) : SysState :=
  if b = 13 then { s with hour := if 24 ≤ s.hour + 1 then 0 else s.hour + 1 }
  else if b = 14 then { s with hour := if s.hour = 0 then 23 else s.hour - 1 }
  else if b = 15 then
    { s with minute := if 60 ≤ s.minute + 1 then 0 else s.minute + 1 }
  else if b = 16 then
    { s with minute := if s.minute = 0 then 59 else s.minute - 1 }
  else if b = 17 then
    { s with tempThreshold :=
        if 30 < s.tempThreshold + 1 then 20 else s.tempThreshold + 1 }
  else s

/-- One pass of the menu-navigation block (lines 125-226): nothing
happens for `ButtonNum == 0`; otherwise the navigation buttons act
first, then the Setup sub-menu acts when the (possibly just updated)
screen is 2.  The Check sub-menu (buttons 4-10, lines 152-186) only
prints values and changes no modelled state. -/
def menuStep (b : Int) (s : SysState) : SysState :=
  if b = 0 then s
  else
    if (navStep b s).screen = 2 then setupStep b (navStep b s)
    else navStep b s

/-- A concrete Setup-screen state whose threshold sits at the lower end
of the 20..30 range. -/
def setupAt20 : SysState := ⟨2, false, false, 5, 0, 20, ⟨1500, false⟩⟩

/-- The invariant of the sweep states reachable from `initSweep`: the
pulse width is a multiple of 30 inside [600, 2400], and at a bound the
direction already points back inwards. -/
def SweepInv (st : SweepState) : Prop :=
  st.angle % 30 = 0 ∧ 600 ≤ st.angle ∧ st.angle ≤ 2400 ∧
  (st.angle = 2400 → st.directionUp = false) ∧
  (st.angle = 600 → st.directionUp = true)

/-- C1: for every sensor snapshot and threshold, the pump decision of
`runProject` is true iff soil ≥ 40, the hour is in an allowed window,
light < 70, rain ≥ 80 and temp < threshold; moreover the conditions are
checked in source order 0..4 (soil, window, light, rain, temperature):
when the decision is false, `firstFailing` yields the least failing
index — that condition fails and every earlier one holds — and the
decision is true exactly when no condition fails. -/
theorem runProject_decision_iff_and_order (s : Sensors) (t : Int) :
    (irrigationDecision s t = true ↔
      (SOIL_THRESHOLD ≤ s.soil ∧ inWindow s.hour = true ∧
        s.light < LIGHT_THRESHOLD ∧ RAIN_THRESHOLD ≤ s.rain ∧
        s.temp < (t : ℚ))) ∧
    (∀ i, firstFailing s t = some i →
      condB s t i = false ∧ ∀ j, j < i → condB s t j = true) ∧
    (irrigationDecision s t = true ↔ firstFailing s t = none) := by
  unfold irrigationDecision runProjectStep firstFailing
  refine ⟨?_, ?_, ?_⟩
  · split_ifs with h1 h2 h3 h4 h5 <;>
      simp_all [not_lt, not_le]
  · intro i hi
    split_ifs at hi with h1 h2 h3 h4 h5
    · injection hi with hi; subst hi
      refine ⟨by simp [condB]; exact h1, fun j hj => absurd hj (by omega)⟩
    · injection hi with hi; subst hi
      simp only [Bool.not_eq_true'] at h2
      refine ⟨by simpa [condB] using h2, ?_⟩
      intro j hj
      interval_cases j
      simp [condB]; exact not_lt.mp h1
    · injection hi with hi; subst hi
      simp only [Bool.not_eq_true, Bool.not_eq_false] at h2
      refine ⟨by simp [condB]; exact h3, ?_⟩
      intro j hj
      interval_cases j
      · simp [condB]; exact not_lt.mp h1
      · simpa [condB] using h2
    · injection hi with hi; subst hi
      simp only [Bool.not_eq_true, Bool.not_eq_false] at h2
      refine ⟨by simp [condB]; exact h4, ?_⟩
      intro j hj
      interval_cases j
      · simp [condB]; exact not_lt.mp h1
      · simpa [condB] using h2
      · simp [condB]; exact not_le.mp h3
    · injection hi with hi; subst hi
      simp only [Bool.not_eq_true, Bool.not_eq_false] at h2
      refine ⟨by simp [condB]; exact h5, ?_⟩
      intro j hj
      interval_cases j
      · simp [condB]; exact not_lt.mp h1
      · simpa [condB] using h2
      · simp [condB]; exact not_le.mp h3
      · simp [condB]; exact not_lt.mp h4
  · split_ifs <;> simp_all

theorem sweepStep_bounds (st : SweepState) (h1 : 600 ≤ st.angle)
    (h2 : st.angle ≤ 2400) :
    600 ≤ (sweepStep st).angle ∧ (sweepStep st).angle ≤ 2400 := by
  obtain ⟨a, d⟩ := st
  cases d <;> simp only [sweepStep] <;> split_ifs <;> simp_all <;> omega

theorem stepIter_bounds (n : Nat) :
    ∀ st : SweepState, 600 ≤ st.angle → st.angle ≤ 2400 →
      600 ≤ (stepIter n st).angle ∧ (stepIter n st).angle ≤ 2400 := by
  induction n with
  | zero => exact fun st h1 h2 => ⟨h1, h2⟩
  | succ n ih =>
      intro st h1 h2
      have h := sweepStep_bounds st h1 h2
      simpa only [stepIter] using ih (sweepStep st) h.1 h.2

/-- C2: from any sweep state with `angle ∈ [600, 2400]`, every sequence
of all-conditions-met sweep advances keeps `angle` within [600, 2400]
(never overshooting a bound), and one advance flips the direction
exactly when the stepped value reaches the bound: going up iff
`angle + 30 ≥ 2400`, going down iff `angle - 30 ≤ 600`. -/
theorem sweep_range_invariant_and_flip (st : SweepState)
    (h1 : 600 ≤ st.angle) (h2 : st.angle ≤ 2400) :
    (∀ n, 600 ≤ (stepIter n st).angle ∧ (stepIter n st).angle ≤ 2400) ∧
    ((sweepStep st).directionUp ≠ st.directionUp ↔
      ((st.directionUp = true ∧ 2400 ≤ st.angle + 30) ∨
       (st.directionUp = false ∧ st.angle - 30 ≤ 600))) := by
  refine ⟨fun n => stepIter_bounds n st h1 h2, ?_⟩
  obtain ⟨a, d⟩ := st
  simp only at h1 h2
  cases d <;> simp only [sweepStep] <;> split_ifs <;> simp_all <;> omega

/-- Closed witness for `sweep_range_invariant_and_flip` at the state
`angle = 2370`, `directionUp = true` and `n = 4`. -/
theorem sweep_range_invariant_and_flip_spot :
    (600 ≤ (stepIter 4 ⟨2370, true⟩).angle ∧
      (stepIter 4 ⟨2370, true⟩).angle ≤ 2400) ∧
    (sweepStep ⟨2370, true⟩).directionUp ≠ true :=
  have h := sweep_range_invariant_and_flip ⟨2370, true⟩ (by decide) (by decide)
  ⟨h.1 4, h.2.mpr (Or.inl ⟨rfl, by decide⟩)⟩

/-- C3: when all five irrigation conditions hold, `runProject` turns the
pump on and the only change to the sweep state is one 30 µs step in the
current direction clamped to [600, 2400]; the direction flips exactly
when the clamped step lands on the bound being approached. -/
theorem allmet_step_pump_and_sweep (s : Sensors) (t : Int) (st : SweepState)
    (hc : SOIL_THRESHOLD ≤ s.soil ∧ inWindow s.hour = true ∧
      s.light < LIGHT_THRESHOLD ∧ RAIN_THRESHOLD ≤ s.rain ∧ s.temp < (t : ℚ))
    (h1 : 600 ≤ st.angle) (h2 : st.angle ≤ 2400) :
    runProjectStep s t st = (true, sweepStep st) ∧
    (sweepStep st).angle =
      (if st.directionUp then min (st.angle + 30) 2400
       else max (st.angle - 30) 600) ∧
    ((sweepStep st).directionUp ≠ st.directionUp ↔
      (((sweepStep st).angle = 2400 ∧ st.directionUp = true) ∨
       ((sweepStep st).angle = 600 ∧ st.directionUp = false))) := by
  obtain ⟨hsoil, hwin, hlight, hrain, htemp⟩ := hc
  refine ⟨?_, ?_, ?_⟩
  · unfold runProjectStep
    split_ifs with g1 g2 g3 g4 g5
    · exact absurd hsoil (not_le.mpr g1)
    · rw [hwin] at g2; exact absurd g2 (by simp)
    · exact absurd g3 (not_le.mpr hlight)
    · exact absurd hrain (not_le.mpr g4)
    · exact absurd g5 (not_le.mpr htemp)
    · rfl
  · obtain ⟨a, d⟩ := st
    simp only at h1 h2
    cases d <;> simp only [sweepStep] <;> split_ifs <;> simp_all <;> omega
  · obtain ⟨a, d⟩ := st
    simp only at h1 h2
    cases d <;> simp only [sweepStep] <;> split_ifs <;> simp_all <;> omega

/-- Closed witness for `allmet_step_pump_and_sweep` at `goodSensors`,
threshold 27 and the initial sweep position going up. -/
theorem allmet_step_pump_and_sweep_spot :
    runProjectStep goodSensors 27 ⟨1500, true⟩ = (true, sweepStep ⟨1500, true⟩) :=
  (allmet_step_pump_and_sweep goodSensors 27 ⟨1500, true⟩
    ⟨by decide, by decide, by decide, by decide, by decide⟩
    (by decide) (by decide)).1

/-- C4: whenever one of the five conditions fails, `runProject` turns the
pump off and returns without touching the sweep state: `angle` and
`directionUp` are exactly as before the call. -/
theorem failed_step_frame (s : Sensors) (t : Int) (st : SweepState)
    (hc : ¬(SOIL_THRESHOLD ≤ s.soil ∧ inWindow s.hour = true ∧
      s.light < LIGHT_THRESHOLD ∧ RAIN_THRESHOLD ≤ s.rain ∧
      s.temp < (t : ℚ))) :
    runProjectStep s t st = (false, st) := by
  unfold runProjectStep
  split_ifs with g1 g2 g3 g4 g5
  · rfl
  · rfl
  · rfl
  · rfl
  · rfl
  · exact absurd ⟨not_lt.mp g1, by simpa using g2, not_le.mp g3,
      not_lt.mp g4, not_le.mp g5⟩ hc

/-- Closed witness for `failed_step_frame`: soil reads 10 (< 40), so the
pump stays off and the sweep state is untouched. -/
theorem failed_step_frame_spot :
    runProjectStep ⟨10, 90, 30, 22, 5, 15, 0⟩ 27 ⟨1500, true⟩ =
      (false, ⟨1500, true⟩) :=
  failed_step_frame ⟨10, 90, 30, 22, 5, 15, 0⟩ 27 ⟨1500, true⟩ (by decide)

/-- C5: the time-window condition depends only on the hour — changing
minute and second never changes the decision — and it holds exactly for
hour in [4, 8) or [19, 22); in particular hours 4 and 19 pass while
8, 22, 3 and 23 fail. -/
theorem window_depends_on_hour_only (s : Sensors) (t m sec : Int) :
    (irrigationDecision { s with minute := m, second := sec } t =
      irrigationDecision s t) ∧
    (∀ h : Int, inWindow h = true ↔ ((4 ≤ h ∧ h < 8) ∨ (19 ≤ h ∧ h < 22))) ∧
    (inWindow 4 = true ∧ inWindow 19 = true ∧ inWindow 8 = false ∧
     inWindow 22 = false ∧ inWindow 3 = false ∧ inWindow 23 = false) := by
  refine ⟨rfl, ?_, by decide⟩
  intro h
  simp [inWindow]

/-- Closed witness for `window_depends_on_hour_only`: minute and second
may change arbitrarily without affecting the decision, and hour 5 is in
the window. -/
theorem window_depends_on_hour_only_spot :
    irrigationDecision { goodSensors with minute := 59, second := 42 } 27 =
      irrigationDecision goodSensors 27 ∧ inWindow 5 = true :=
  ⟨(window_depends_on_hour_only goodSensors 27 59 42).1,
    ((window_depends_on_hour_only goodSensors 27 59 42).2.1 5).mpr
      (Or.inl ⟨by decide, by decide⟩)⟩

/-- C6: starting from `angle = 1500`, `directionUp = 1`, thirty
consecutive all-conditions-met `runProject` calls (at `goodSensors`,
threshold 27) reach exactly 2400; the direction is still up after every
one of the first 29 calls and flips to down precisely on the 30th, and
the pump is on at each of the 30 calls. -/
theorem sweep_reaches_top_on_30th_call :
    (runIter goodSensors 27 29 ⟨1500, true⟩).angle = 2370 ∧
    (runIter goodSensors 27 30 ⟨1500, true⟩).angle = 2400 ∧
    (runIter goodSensors 27 30 ⟨1500, true⟩).directionUp = false ∧
    (∀ n, n < 30 → (runIter goodSensors 27 n ⟨1500, true⟩).directionUp = true) ∧
    (∀ n, n < 30 →
      (runProjectStep goodSensors 27 (runIter goodSensors 27 n ⟨1500, true⟩)).1
        = true) := by
  refine ⟨by decide, by decide, by decide, by decide, by decide⟩

/-- C7 counterexample: the initial sweep state does not have
`directionUp` set to up — the uninitialized global is 0 (down), so the
claimed initial state (1500, up) is refuted. -/
theorem initial_direction_not_up :
    ¬(initSweep.angle = 1500 ∧ initSweep.directionUp = true) := by
  decide

/-- C7 (amended): before any step call, `angle` is 1500 (center, 90°)
and `directionUp` is 0, i.e. the sweep initially moves down. -/
theorem initial_sweep_center_down :
    initSweep.angle = 1500 ∧ initSweep.directionUp = false := by
  decide

theorem navStep_sweep (b : Int) (s : SysState) :
    (navStep b s).sweep = s.sweep := by
  unfold navStep
  split_ifs <;> rfl

theorem setupStep_sweep (b : Int) (s : SysState) :
    (setupStep b s).sweep = s.sweep := by
  unfold setupStep
  split_ifs <;> rfl

theorem menuStep_sweep (b : Int) (s : SysState) :
    (menuStep b s).sweep = s.sweep := by
  unfold menuStep
  split_ifs <;> simp [navStep_sweep, setupStep_sweep]

/-- C8: leaving Active mode (pressing Check = 1 or Setup = 2 while
`runFlag` is set) forces the relay off and clears `runFlag`, while the
sweep state is untouched; in fact no menu input ever changes the sweep
state, and pressing Project (3) re-enables `runFlag` with the sweep
state still at its saved position and direction. -/
theorem mode_exit_relay_off_sweep_preserved (s : SysState) (b : Int) :
    (s.runFlag = true → (b = 1 ∨ b = 2) →
      (menuStep b s).relay = false ∧ (menuStep b s).runFlag = false ∧
      (menuStep b s).sweep = s.sweep) ∧
    ((menuStep b s).sweep = s.sweep) ∧
    ((menuStep 3 s).runFlag = true ∧ (menuStep 3 s).sweep = s.sweep) := by
  refine ⟨?_, menuStep_sweep b s, ?_, menuStep_sweep 3 s⟩
  · rintro _ (rfl | rfl)
    · exact ⟨by norm_num [menuStep, navStep], by norm_num [menuStep, navStep],
        menuStep_sweep 1 s⟩
    · exact ⟨by norm_num [menuStep, navStep, setupStep],
        by norm_num [menuStep, navStep, setupStep], menuStep_sweep 2 s⟩
  · norm_num [menuStep, navStep]

/-- Closed witness for `mode_exit_relay_off_sweep_preserved`: exiting an
active Project session via the Check button turns the relay off and
keeps the sweep state. -/
theorem mode_exit_relay_off_sweep_preserved_spot :
    (menuStep 1 ⟨3, true, true, 5, 0, 27, ⟨1530, true⟩⟩).relay = false ∧
    (menuStep 1 ⟨3, true, true, 5, 0, 27, ⟨1530, true⟩⟩).runFlag = false ∧
    (menuStep 1 ⟨3, true, true, 5, 0, 27, ⟨1530, true⟩⟩).sweep = ⟨1530, true⟩ :=
  (mode_exit_relay_off_sweep_preserved ⟨3, true, true, 5, 0, 27, ⟨1530, true⟩⟩
    1).1 rfl (Or.inl rfl)

/-- C9 counterexample: the firmware has no decrement for the threshold.
Pressing the only threshold-adjust input (button 17) on the Setup screen
with `TEMP_THRESHOLD = 20` yields 21, not the 30 that "decrementing past
20 yields 30" would require. -/
theorem temp_adjust_at_20_increments :
    (menuStep 17 setupAt20).tempThreshold = 21 ∧
    ¬((menuStep 17 setupAt20).tempThreshold = 30) := by
  decide

theorem navStep_tempThreshold (b : Int) (s : SysState) :
    (navStep b s).tempThreshold = s.tempThreshold := by
  unfold navStep
  split_ifs <;> rfl

theorem setupStep_tempThreshold (b : Int) (s : SysState) :
    (setupStep b s).tempThreshold =
      (if b = 17 then
        (if 30 < s.tempThreshold + 1 then 20 else s.tempThreshold + 1)
       else s.tempThreshold) := by
  by_cases h13 : b = 13
  · subst h13; simp [setupStep]
  · by_cases h14 : b = 14
    · subst h14; simp [setupStep]
    · by_cases h15 : b = 15
      · subst h15; simp [setupStep]
      · by_cases h16 : b = 16
        · subst h16; simp [setupStep]
        · by_cases h17 : b = 17
          · subst h17; simp [setupStep]
          · simp [setupStep, h13, h14, h15, h16, h17]

theorem menuStep_tempThreshold (b : Int) (s : SysState) :
    (menuStep b s).tempThreshold = s.tempThreshold ∨
      (b = 17 ∧ (menuStep b s).tempThreshold =
        (if 30 < s.tempThreshold + 1 then 20 else s.tempThreshold + 1)) := by
  by_cases h0 : b = 0
  · left
    unfold menuStep
    rw [if_pos h0]
  · by_cases hscr : (navStep b s).screen = 2
    · by_cases h17 : b = 17
      · right
        refine ⟨h17, ?_⟩
        unfold menuStep
        rw [if_neg h0, if_pos hscr, setupStep_tempThreshold, if_pos h17,
          navStep_tempThreshold]
      · left
        unfold menuStep
        rw [if_neg h0, if_pos hscr, setupStep_tempThreshold, if_neg h17,
          navStep_tempThreshold]
    · left
      unfold menuStep
      rw [if_neg h0, if_neg hscr]
      exact navStep_tempThreshold b s

theorem menuStep17_tempThreshold (s : SysState) (hs : s.screen = 2) :
    (menuStep 17 s).tempThreshold =
      (if 30 < s.tempThreshold + 1 then 20 else s.tempThreshold + 1) := by
  have hnav : navStep 17 s = s := by
    unfold navStep
    rw [if_neg (by norm_num), if_neg (by norm_num), if_neg (by norm_num)]
  unfold menuStep
  rw [if_neg (by norm_num), hnav, if_pos hs, setupStep_tempThreshold,
    if_pos rfl]

/-- C9 (amended): `TEMP_THRESHOLD` always stays within 20..30 under every
menu input, and the single adjust button (17, on the Setup screen) only
increments: past 30 it wraps back to 20, below 30 it adds one; no input
ever lowers the threshold except that wrap. -/
theorem temp_threshold_range_and_wrap (s : SysState) (b : Int)
    (h1 : 20 ≤ s.tempThreshold) (h2 : s.tempThreshold ≤ 30) :
    (20 ≤ (menuStep b s).tempThreshold ∧ (menuStep b s).tempThreshold ≤ 30) ∧
    ((menuStep b s).tempThreshold = s.tempThreshold ∨
      (menuStep b s).tempThreshold = s.tempThreshold + 1 ∨
      (s.tempThreshold = 30 ∧ (menuStep b s).tempThreshold = 20)) ∧
    (s.screen = 2 → s.tempThreshold = 30 →
      (menuStep 17 s).tempThreshold = 20) ∧
    (s.screen = 2 → s.tempThreshold < 30 →
      (menuStep 17 s).tempThreshold = s.tempThreshold + 1) := by
  refine ⟨?_, ?_, ?_, ?_⟩
  · rcases menuStep_tempThreshold b s with h | ⟨_, h⟩ <;> rw [h]
    · exact ⟨h1, h2⟩
    · split_ifs <;> omega
  · rcases menuStep_tempThreshold b s with h | ⟨_, h⟩
    · exact Or.inl h
    · rw [h]
      split_ifs with hw
      · exact Or.inr (Or.inr ⟨by omega, rfl⟩)
      · exact Or.inr (Or.inl rfl)
  · intro hs h30
    rw [menuStep17_tempThreshold s hs, if_pos (by omega)]
  · intro hs hlt
    rw [menuStep17_tempThreshold s hs, if_neg (by omega)]

/-- Closed witness for `temp_threshold_range_and_wrap`: with the
threshold at 30 on the Setup screen, the adjust button wraps to 20. -/
theorem temp_threshold_range_and_wrap_spot :
    (menuStep 17 ⟨2, false, false, 5, 0, 30, ⟨1500, false⟩⟩).tempThreshold
      = 20 :=
  (temp_threshold_range_and_wrap ⟨2, false, false, 5, 0, 30, ⟨1500, false⟩⟩
    17 (by decide) (by decide)).2.2.1 rfl rfl

theorem sweepStep_down (a : Nat) (h1 : 30 ≤ a) (h2 : a ≤ 2400) :
    sweepStep ⟨a, false⟩ =
      (if a - 30 ≤ 600 then ⟨600, true⟩ else ⟨a - 30, false⟩) := by
  have hmod : (a + 65536 - 30) % 65536 = a - 30 := by omega
  unfold sweepStep
  rw [if_neg (by simp), hmod]

theorem sweepStep_up (a : Nat) (h2 : a ≤ 2400) :
    sweepStep ⟨a, true⟩ =
      (if 2400 ≤ a + 30 then ⟨2400, false⟩ else ⟨a + 30, true⟩) := by
  have hmod : (a + 30) % 65536 = a + 30 := by omega
  unfold sweepStep
  rw [if_pos rfl, hmod]

theorem sweepInv_step (st : SweepState) (h : SweepInv st) :
    SweepInv (sweepStep st) ∧
    (st.directionUp = true → (sweepStep st).angle = st.angle + 30) ∧
    (st.directionUp = false → (sweepStep st).angle = st.angle - 30) := by
  obtain ⟨a, d⟩ := st
  obtain ⟨hm, hlo, hhi, htop, hbot⟩ := h
  simp only at hm hlo hhi htop hbot
  cases d
  · have ha : a ≠ 600 := fun h600 => by simpa using hbot h600
    have h630 : 630 ≤ a := by omega
    rw [sweepStep_down a (by omega) hhi]
    split_ifs with hcl
    · exact ⟨by unfold SweepInv; decide, fun hc => absurd hc (by simp),
        fun _ => by dsimp only; omega⟩
    · refine ⟨?_, fun hc => absurd hc (by simp), fun _ => rfl⟩
      unfold SweepInv
      dsimp only
      exact ⟨by omega, by omega, by omega, fun _ => rfl,
        fun hc => absurd hc (by omega)⟩
  · have ha : a ≠ 2400 := fun h2400 => by simpa using htop h2400
    have h2370 : a ≤ 2370 := by omega
    rw [sweepStep_up a hhi]
    split_ifs with hcl
    · exact ⟨by unfold SweepInv; decide, fun _ => by dsimp only; omega,
        fun hc => absurd hc (by simp)⟩
    · refine ⟨?_, fun _ => rfl, fun hc => absurd hc (by simp)⟩
      unfold SweepInv
      dsimp only
      exact ⟨by omega, by omega, by omega, fun hc => absurd hc (by omega),
        fun _ => rfl⟩

theorem runProjectStep_state (s : Sensors) (t : Int) (st : SweepState) :
    (runProjectStep s t st).2 = st ∨ (runProjectStep s t st).2 = sweepStep st := by
  unfold runProjectStep
  split_ifs <;> simp

theorem sweepInv_runSeq (l : List (Sensors × Int)) :
    ∀ st : SweepState, SweepInv st → SweepInv (runSeq l st) := by
  induction l with
  | nil => exact fun st h => h
  | cons p l ih =>
      intro st h
      have hstep : SweepInv (runProjectStep p.1 p.2 st).2 := by
        rcases runProjectStep_state p.1 p.2 st with heq | heq
        · rwa [heq]
        · rw [heq]; exact (sweepInv_step st h).1
      simpa only [runSeq, List.foldl_cons] using ih _ hstep

set_option maxRecDepth 8000 in
/-- C10: every sweep state reachable from the initial (1500, down) state
through any sequence of `runProject` calls has a pulse width that is a
multiple of 30 inside [600, 2400]; under that invariant the clamping
assignments never change the stepped value (the bounds are reached
exactly, never crossed), and the sweep indeed lands exactly on 600
(30 calls down) and on 2400 (60 further calls up). -/
theorem reachable_angles_multiples_of_30 (l : List (Sensors × Int)) :
    ((runSeq l initSweep).angle % 30 = 0 ∧ 600 ≤ (runSeq l initSweep).angle ∧
      (runSeq l initSweep).angle ≤ 2400) ∧
    (∀ st, SweepInv st →
      (sweepStep st).angle =
        (if st.directionUp then st.angle + 30 else st.angle - 30)) ∧
    ((runIter goodSensors 27 30 initSweep).angle = 600 ∧
     (runIter goodSensors 27 90 initSweep).angle = 2400) := by
  have hinit : SweepInv initSweep := by
    refine ⟨by decide, by decide, by decide, by decide, by decide⟩
  have hreach := sweepInv_runSeq l initSweep hinit
  refine ⟨⟨hreach.1, hreach.2.1, hreach.2.2.1⟩, ?_, by decide, by decide⟩
  intro st h
  cases hd : st.directionUp
  · simpa [hd] using (sweepInv_step st h).2.2 hd
  · simpa [hd] using (sweepInv_step st h).2.1 hd

/-- Closed witness for `reachable_angles_multiples_of_30`: after two
all-conditions-met calls the reachable angle 1440 is a multiple of 30 in
range, and from the reachable state (2370, up) the clamp is a no-op:
the step lands exactly on 2400. -/
theorem reachable_angles_multiples_of_30_spot :
    (runSeq [(goodSensors, 27), (goodSensors, 27)] initSweep).angle % 30 = 0 ∧
    (sweepStep ⟨2370, true⟩).angle =
      (if (SweepState.mk 2370 true).directionUp then 2370 + 30
       else 2370 - 30) :=
  ⟨(reachable_angles_multiples_of_30
      [(goodSensors, 27), (goodSensors, 27)]).1.1,
    (reachable_angles_multiples_of_30 []).2.1 ⟨2370, true⟩
      ⟨by norm_num, by norm_num, by norm_num, by norm_num,
        fun hc => absurd hc (by norm_num)⟩⟩

/-- Closed witness for `runProject_decision_iff_and_order`: with soil 55,
hour 5 and light 95 the first failing condition is index 2 (light), so
that condition is false while conditions 0 and 1 hold. -/
theorem runProject_decision_iff_and_order_spot :
    condB ⟨55, 90, 95, 22, 5, 0, 0⟩ 27 2 = false ∧
    (∀ j, j < 2 → condB ⟨55, 90, 95, 22, 5, 0, 0⟩ 27 j = true) :=
  (runProject_decision_iff_and_order ⟨55, 90, 95, 22, 5, 0, 0⟩ 27).2.1 2
    (by decide)
